import Mathlib

/-!
Verification of the net-speed-test measurement engine.

The Python sources (`models.py`, `speed_tester.py`, `exceptions.py`) are
embedded shallowly: network I/O is abstracted by an environment that supplies
the outcome of every HTTP request the probes would issue, round-trip times and
durations are exact rationals, and each probe becomes a total function from the
configuration and the environment to `Except NetError Result`.  The aggregator
`SpeedTester.run_all_tests` composes the four probes exactly as the Python code
does.
-/

namespace NetSpeed

/-- Configuration for speed tests; embeds `SpeedTestConfig` of `models.py`.
Numeric fields are natural numbers (pydantic `conint` values). -/
structure SpeedTestConfig where
  url : String
  download_size_mb : Nat
  upload_size_mb : Nat
  ping_count : Nat
  jitter_samples : Nat
  timeout_seconds : Nat
deriving DecidableEq, Repr

/-- The pydantic validators of `SpeedTestConfig` (`models.py` lines 24-49):
all numeric fields strictly positive and below their bounds, URL uses HTTPS
(`v.startswith("https://")`, expressed on the character list). -/
def SpeedTestConfig.isValid (c : SpeedTestConfig) : Prop :=
  c.url.data.take 8 = "https://".data ∧
  0 < c.download_size_mb ∧ c.download_size_mb < 1000 ∧
  0 < c.upload_size_mb ∧ c.upload_size_mb < 1000 ∧
  0 < c.ping_count ∧ c.ping_count < 100 ∧
  0 < c.jitter_samples ∧ c.jitter_samples < 100 ∧
  0 < c.timeout_seconds ∧ c.timeout_seconds < 300

instance (c : SpeedTestConfig) : Decidable c.isValid := by
  unfold SpeedTestConfig.isValid; infer_instance

/-- The exception classes of `exceptions.py` that the probes raise, each
carrying its message (`str(e)` of the Python exception). -/
inductive NetError where
  | networkConnection (msg : String)
  | testTimeout (msg : String)
  | invalidResponse (msg : String)
deriving DecidableEq, Repr

/-- `str(e)` of the exception: the message it was constructed with. -/
def NetError.message : NetError → String
  | .networkConnection m => m
  | .testTimeout m => m
  | .invalidResponse m => m

/-- Outcome of one small GET issued by the latency/jitter sampling loop:
either a response with a status code and an elapsed round-trip time in
milliseconds, or a `requests` timeout, or another `requests` exception. -/
inductive SampleOutcome where
  | response (status : Nat) (elapsed_ms : ℚ)
  | timeout
  | requestError (msg : String)
deriving DecidableEq, Repr

/-- `PingResult` of `models.py`. -/
structure PingResult where
  min_ms : ℚ
  max_ms : ℚ
  avg_ms : ℚ
  samples : Nat
  failed : Nat
  success_rate_percent : ℚ
deriving DecidableEq, Repr

/-- `DownloadResult` of `models.py`. -/
structure DownloadResult where
  speed_mbps : ℚ
  bytes_transferred : Nat
  time_seconds : ℚ
  requested_size_mb : Nat
deriving DecidableEq, Repr

/-- `UploadResult` of `models.py`. -/
structure UploadResult where
  speed_mbps : ℚ
  bytes_transferred : Nat
  time_seconds : ℚ
  requested_size_mb : Nat
deriving DecidableEq, Repr

/-- `JitterResult` of `models.py`.  `std_dev_ms` is a real number because the
source computes it with `statistics.stdev` (a square root); every other field
is exact rational or natural arithmetic. -/
structure JitterResult where
  avg_jitter_ms : ℚ
  min_jitter_ms : ℚ
  max_jitter_ms : ℚ
  std_dev_ms : ℝ
  samples : Nat
  failed : Nat
  success_rate_percent : ℚ

/-- `SpeedTestResult` of `models.py`: the aggregator's combined result. -/
structure SpeedTestResult where
  ping : Option PingResult
  jitter : Option JitterResult
  download : Option DownloadResult
  upload : Option UploadResult
  errors : List String
  timestamp : ℚ

/-- Python `min(list)` on a nonempty list (0 as a junk value on `[]`,
which the probes never pass). -/
def listMin : List ℚ → ℚ
  | [] => 0
  | x :: xs => xs.foldl min x

/-- Python `max(list)` on a nonempty list. -/
def listMax : List ℚ → ℚ
  | [] => 0
  | x :: xs => xs.foldl max x

/-- `statistics.mean`: arithmetic mean, sum divided by length. -/
def listMean (l : List ℚ) : ℚ := l.sum / l.length

/-- The sample variance used by `statistics.stdev`: squared deviations from
the mean divided by `n - 1` (natural subtraction; the source only evaluates
this for lists of length ≥ 2). -/
def sampleVariance (l : List ℚ) : ℚ :=
  (l.map fun x => (x - listMean l) ^ 2).sum / ((l.length - 1 : ℕ) : ℚ)

/-- The successful round-trip times collected by the sampling loop
(`speed_tester.py` lines 67-100 / 147-180): the `elapsed_ms` of each response
with status code 200, in request order. -/
def successTimes (l : List SampleOutcome) : List ℚ :=
  l.filterMap fun o =>
    match o with
    | .response s t => if s = 200 then some t else none
    | _ => none

/-- `failed_pings`: attempts that got a non-200 status, timed out, or raised
another request exception. -/
def failedCount (l : List SampleOutcome) : Nat :=
  l.countP fun o =>
    match o with
    | .response s _ => decide (s ≠ 200)
    | _ => true

/-- The list of attempt outcomes of a sampling loop of `n` iterations drawn
from environment `env` (`for i in range(n)`). -/
def sampleAttempts (n : Nat) (env : Nat → SampleOutcome) : List SampleOutcome :=
  (List.range n).map env

/-- `PingTest.run_test` (`speed_tester.py` lines 51-123): run `ping_count`
sampling attempts; if any succeeded, return the statistics, otherwise raise
`NetworkConnectionError`. -/
def PingTest.run_test (cfg : SpeedTestConfig) (env : Nat → SampleOutcome) :
    Except NetError PingResult :=
  let ping_times := successTimes (sampleAttempts cfg.ping_count env)
  let failed_pings := failedCount (sampleAttempts cfg.ping_count env)
  if ping_times.length ≠ 0 then
    .ok { min_ms := listMin ping_times
          max_ms := listMax ping_times
          avg_ms := listMean ping_times
          samples := ping_times.length
          failed := failed_pings
          success_rate_percent := ((ping_times.length : ℚ) / (cfg.ping_count : ℚ)) * 100 }
  else
    .error (.networkConnection "All ping requests failed")

/-- `differences` of `JitterTest.run_test` (`speed_tester.py` lines 185-188):
absolute differences of consecutive successful times, in request order. -/
def consecDiffs (l : List ℚ) : List ℚ :=
  (l.zip l.tail).map fun p => |p.2 - p.1|

/-- `JitterTest.run_test` (`speed_tester.py` lines 129-211): run
`jitter_samples` sampling attempts; with at least two successes, reduce the
consecutive differences, else raise `NetworkConnectionError`.  `std_dev_ms`
mirrors `statistics.stdev(differences) if len(differences) > 1 else 0`. -/
noncomputable def JitterTest.run_test (cfg : SpeedTestConfig)
    (env : Nat → SampleOutcome) : Except NetError JitterResult :=
  let ping_times := successTimes (sampleAttempts cfg.jitter_samples env)
  let failed_pings := failedCount (sampleAttempts cfg.jitter_samples env)
  if 2 ≤ ping_times.length then
    let differences := consecDiffs ping_times
    .ok { avg_jitter_ms := listMean differences
          min_jitter_ms := listMin differences
          max_jitter_ms := listMax differences
          std_dev_ms :=
            if 1 < differences.length then Real.sqrt (sampleVariance differences) else 0
          samples := ping_times.length
          failed := failed_pings
          success_rate_percent :=
            ((ping_times.length : ℚ) / (cfg.jitter_samples : ℚ)) * 100 }
  else
    .error (.networkConnection "Not enough successful jitter samples to calculate result")

/-- Outcome of the single streaming GET/POST of a transfer probe: a response
with a status code, the byte lengths of the body chunks iterated over, and
the measured wall-clock duration in seconds; or a timeout; or another
request exception. -/
inductive TransferOutcome where
  | response (status : Nat) (chunks : List Nat) (duration : ℚ)
  | timeout
  | requestError (msg : String)
deriving DecidableEq, Repr

/-- The byte-counting loop of `DownloadTest.run_test` (`speed_tester.py`
lines 254-258): `for chunk in ...: if chunk: downloaded_bytes += len(chunk)`. -/
def countDownloaded (chunks : List Nat) : Nat :=
  chunks.foldl (fun acc c => if c ≠ 0 then acc + c else acc) 0

/-- `DownloadTest.run_test` (`speed_tester.py` lines 217-283). -/
def DownloadTest.run_test (cfg : SpeedTestConfig) (o : TransferOutcome) :
    Except NetError DownloadResult :=
  match o with
  | .timeout => .error (.testTimeout "Download test timed out")
  | .requestError e => .error (.networkConnection ("Download test failed: " ++ e))
  | .response status chunks duration =>
    if status ≠ 200 then
      .error (.invalidResponse
        ("Download test failed with status code: " ++ toString status))
    else
      let downloaded_bytes := countDownloaded chunks
      if 0 < duration then
        .ok { speed_mbps := (((downloaded_bytes : ℚ) * 8) / duration) / 1000000
              bytes_transferred := downloaded_bytes
              time_seconds := duration
              requested_size_mb := cfg.download_size_mb }
      else
        .error (.invalidResponse "Download completed too quickly to measure")

/-- `UploadTest.run_test` (`speed_tester.py` lines 289-367).  The body chunks
of the outcome play no role: the source computes throughput from the
requested `size_bytes`, not from bytes acknowledged. -/
def UploadTest.run_test (cfg : SpeedTestConfig) (o : TransferOutcome) :
    Except NetError UploadResult :=
  let size_bytes := cfg.upload_size_mb * 1024 * 1024
  match o with
  | .timeout => .error (.testTimeout "Upload test timed out")
  | .requestError e => .error (.networkConnection ("Upload test failed: " ++ e))
  | .response status _ duration =>
    if status ∉ ([200, 201, 202, 204] : List Nat) then
      .error (.invalidResponse
        ("Upload test failed with status code: " ++ toString status))
    else
      if 0 < duration then
        .ok { speed_mbps := (((size_bytes : ℚ) * 8) / duration) / 1000000
              bytes_transferred := size_bytes
              time_seconds := duration
              requested_size_mb := cfg.upload_size_mb }
      else
        .error (.invalidResponse "Upload completed too quickly to measure")

/-- The chunk-size sequence produced by `data_generator` of
`UploadTest.run_test` (`speed_tester.py` lines 320-326), with explicit fuel
bounding the number of loop iterations: `none` means the `while` loop did not
finish within `fuel` yields. -/
def genChunksFuel : Nat → Nat → Nat → Option (List Nat)
  | 0, _, remaining => if remaining = 0 then some [] else none
  | fuel + 1, chunk, remaining =>
    if 0 < remaining then
      let current := min chunk remaining
      (genChunksFuel fuel chunk (remaining - current)).map (current :: ·)
    else
      some []

/-- The sizes of the chunks `data_generator` yields for an upload of
`upload_size_mb` MB: chunk size `min(1024*1024, size_bytes)`, looping while
bytes remain (`speed_tester.py` lines 301, 310-311, 320-326). -/
def dataGeneratorChunks (upload_size_mb : Nat) (fuel : Nat) : Option (List Nat) :=
  let size_bytes := upload_size_mb * 1024 * 1024
  genChunksFuel fuel (min (1024 * 1024) size_bytes) size_bytes

/-- The shape of one HTTP request issued by a probe: URL, timeout, headers
and the `params` dict passed to `requests`. -/
structure HttpRequest where
  url : String
  timeout : Nat
  headers : List (String × String)
  params : List (String × String)
deriving DecidableEq, Repr

/-- The GET issued per attempt by `PingTest.run_test` (`speed_tester.py`
lines 70-75); `now_ms` is `int(time.time() * 1000)`, the cache buster. -/
def pingRequest (cfg : SpeedTestConfig) (now_ms : Nat) : HttpRequest :=
  { url := cfg.url
    timeout := cfg.timeout_seconds
    headers := [("Cache-Control", "no-cache")]
    params := [("_", toString now_ms)] }

/-- The GET issued per attempt by `JitterTest.run_test` (`speed_tester.py`
lines 150-155). -/
def jitterRequest (cfg : SpeedTestConfig) (now_ms : Nat) : HttpRequest :=
  { url := cfg.url
    timeout := cfg.timeout_seconds
    headers := [("Cache-Control", "no-cache")]
    params := [("_", toString now_ms)] }

/-- The single GET issued by `DownloadTest.run_test` (`speed_tester.py`
lines 229-245): the requested byte count is appended to the URL itself and
no `params` dict is passed. -/
def downloadRequest (cfg : SpeedTestConfig) : HttpRequest :=
  { url := cfg.url ++ "?bytes=" ++ toString (cfg.download_size_mb * 1024 * 1024)
    timeout := cfg.timeout_seconds
    headers := [("Cache-Control", "no-cache")]
    params := [] }

/-- The single POST issued by `UploadTest.run_test` (`speed_tester.py`
lines 329-337). -/
def uploadRequest (cfg : SpeedTestConfig) : HttpRequest :=
  { url := cfg.url
    timeout := cfg.timeout_seconds
    headers := [("Content-Type", "application/octet-stream"),
                ("Cache-Control", "no-cache")]
    params := [] }

/-- `SpeedTestResult.is_successful` (`models.py` lines 125-130):
`any([ping, jitter, download, upload])` — dataclass instances are truthy and
`None` is falsy, so this is "at least one probe result is present". -/
def SpeedTestResult.is_successful (r : SpeedTestResult) : Bool :=
  r.ping.isSome || r.jitter.isSome || r.download.isSome || r.upload.isSome

/-- One `try/except` block of `run_all_tests`: the failure-list entries the
block appends — none on success, `pre + str(e)` on failure. -/
def errEntry {α : Type} (pre : String) (x : Except NetError α) : List String :=
  match x with
  | .ok _ => []
  | .error e => [pre ++ e.message]

/-- `SpeedTester.run_all_tests` (`speed_tester.py` lines 423-460): run the
four probes in order; each `try/except` block populates the field on success
and appends `"<Probe> test error: " + str(e)` on failure; finally the
completion timestamp `now` is recorded. -/
noncomputable def SpeedTester.run_all_tests (cfg : SpeedTestConfig)
    (pingEnv jitterEnv : Nat → SampleOutcome)
    (downloadOutcome uploadOutcome : TransferOutcome) (now : ℚ) :
    SpeedTestResult :=
  let pingR := PingTest.run_test cfg pingEnv
  let jitterR := JitterTest.run_test cfg jitterEnv
  let downloadR := DownloadTest.run_test cfg downloadOutcome
  let uploadR := UploadTest.run_test cfg uploadOutcome
  { ping := pingR.toOption
    jitter := jitterR.toOption
    download := downloadR.toOption
    upload := uploadR.toOption
    errors :=
      errEntry "Ping test error: " pingR ++
      errEntry "Jitter test error: " jitterR ++
      errEntry "Download test error: " downloadR ++
      errEntry "Upload test error: " uploadR
    timestamp := now }

/-! ### Helper lemmas -/

lemma foldl_min_le_init (l : List ℚ) (a : ℚ) : l.foldl min a ≤ a := by
  induction l generalizing a with
  | nil => simp
  | cons x xs ih =>
    calc (x :: xs).foldl min a = xs.foldl min (min a x) := rfl
    _ ≤ min a x := ih _
    _ ≤ a := min_le_left _ _

lemma foldl_min_le_mem {l : List ℚ} {b : ℚ} (a : ℚ) (hb : b ∈ l) :
    l.foldl min a ≤ b := by
  induction l generalizing a with
  | nil => cases hb
  | cons x xs ih =>
    rcases List.mem_cons.mp hb with rfl | hb
    · calc (b :: xs).foldl min a = xs.foldl min (min a b) := rfl
      _ ≤ min a b := foldl_min_le_init _ _
      _ ≤ b := min_le_right _ _
    · exact ih _ hb

lemma init_le_foldl_max (l : List ℚ) (a : ℚ) : a ≤ l.foldl max a := by
  induction l generalizing a with
  | nil => simp
  | cons x xs ih =>
    calc a ≤ max a x := le_max_left _ _
    _ ≤ xs.foldl max (max a x) := ih _
    _ = (x :: xs).foldl max a := rfl

lemma mem_le_foldl_max {l : List ℚ} {b : ℚ} (a : ℚ) (hb : b ∈ l) :
    b ≤ l.foldl max a := by
  induction l generalizing a with
  | nil => cases hb
  | cons x xs ih =>
    rcases List.mem_cons.mp hb with rfl | hb
    · calc b ≤ max a b := le_max_right _ _
      _ ≤ xs.foldl max (max a b) := init_le_foldl_max _ _
      _ = (b :: xs).foldl max a := rfl
    · exact ih _ hb

lemma listMin_le_mem {l : List ℚ} {b : ℚ} (hb : b ∈ l) : listMin l ≤ b := by
  cases l with
  | nil => cases hb
  | cons x xs =>
    rcases List.mem_cons.mp hb with rfl | hb
    · exact foldl_min_le_init _ _
    · exact foldl_min_le_mem _ hb

lemma mem_le_listMax {l : List ℚ} {b : ℚ} (hb : b ∈ l) : b ≤ listMax l := by
  cases l with
  | nil => cases hb
  | cons x xs =>
    rcases List.mem_cons.mp hb with rfl | hb
    · exact init_le_foldl_max _ _
    · exact mem_le_foldl_max _ hb

lemma listMin_le_listMean {l : List ℚ} (hl : l ≠ []) : listMin l ≤ listMean l := by
  have hpos : (0 : ℚ) < l.length := by
    exact_mod_cast List.length_pos.mpr hl
  rw [listMean, le_div_iff₀ hpos]
  have h := List.card_nsmul_le_sum (l := l) (n := listMin l)
    (fun x hx => listMin_le_mem hx)
  rw [nsmul_eq_mul] at h
  linarith [h]

lemma listMean_le_listMax {l : List ℚ} (hl : l ≠ []) : listMean l ≤ listMax l := by
  have hpos : (0 : ℚ) < l.length := by
    exact_mod_cast List.length_pos.mpr hl
  rw [listMean, div_le_iff₀ hpos]
  have h := List.sum_le_card_nsmul (l := l) (n := listMax l)
    (fun x hx => mem_le_listMax hx)
  rw [nsmul_eq_mul] at h
  linarith [h]

lemma successTimes_length_add_failedCount (l : List SampleOutcome) :
    (successTimes l).length + failedCount l = l.length := by
  induction l with
  | nil => rfl
  | cons o os ih =>
    simp only [successTimes, failedCount, List.filterMap_cons, List.countP_cons,
      List.length_cons, decide_not] at ih ⊢
    cases o with
    | response s t =>
      by_cases hs : s = 200
      · simp [hs]
        omega
      · simp [hs]
        omega
    | timeout =>
      simp
      omega
    | requestError m =>
      simp
      omega

lemma sampleAttempts_length (n : Nat) (env : Nat → SampleOutcome) :
    (sampleAttempts n env).length = n := by
  simp [sampleAttempts]

lemma consecDiffs_length (l : List ℚ) :
    (consecDiffs l).length = l.length - 1 := by
  simp [consecDiffs]

lemma sampleVariance_nonneg (l : List ℚ) : 0 ≤ sampleVariance l := by
  apply div_nonneg
  · apply List.sum_nonneg
    intro y hy
    rcases List.mem_map.mp hy with ⟨x, _, rfl⟩
    positivity
  · exact_mod_cast Nat.zero_le _

lemma countDownloaded_foldl (l : List Nat) (a : Nat) :
    l.foldl (fun acc c => if c ≠ 0 then acc + c else acc) a = a + l.sum := by
  induction l generalizing a with
  | nil => simp
  | cons c cs ih =>
    simp only [List.foldl_cons, List.sum_cons]
    by_cases hc : c = 0
    · rw [if_neg (by simp [hc]), ih]
      omega
    · rw [if_pos hc, ih]
      omega

lemma countDownloaded_eq_sum (l : List Nat) : countDownloaded l = l.sum := by
  rw [countDownloaded, countDownloaded_foldl]
  omega

lemma genChunksFuel_exact (c : Nat) (hc : 0 < c) :
    ∀ m : Nat, genChunksFuel m c (m * c) = some (List.replicate m c) := by
  intro m
  induction m with
  | zero => simp [genChunksFuel]
  | succ k ih =>
    have hpos : 0 < (k + 1) * c := by positivity
    have hmin : min c ((k + 1) * c) = c :=
      min_eq_left (Nat.le_mul_of_pos_left c (Nat.succ_pos k))
    have hsub : (k + 1) * c - c = k * c := by
      rw [Nat.succ_mul]
      omega
    simp only [genChunksFuel, if_pos hpos, hmin, hsub, ih, Option.map_some]
    rfl

/-! ### Concrete fixtures used by witnesses and counterexamples -/

/-- A valid example configuration (the defaults of `models.py`). -/
def exampleConfig : SpeedTestConfig :=
  { url := "https://example.com"
    download_size_mb := 10
    upload_size_mb := 5
    ping_count := 10
    jitter_samples := 20
    timeout_seconds := 30 }

/-- A valid configuration with `ping_count = 5`, as in the spec scenario. -/
def pingScenarioConfig : SpeedTestConfig :=
  { exampleConfig with ping_count := 5 }

/-- A valid configuration with `jitter_samples = 3`, as in the spec scenario. -/
def jitterScenarioConfig : SpeedTestConfig :=
  { exampleConfig with jitter_samples := 3 }

/-- An environment answering attempt `i` with an HTTP 200 response whose
round-trip time is `ts[i]`, and a timeout past the end of `ts`. -/
def envOfTimes (ts : List ℚ) : Nat → SampleOutcome := fun i =>
  match ts[i]? with
  | some t => .response 200 t
  | none => .timeout

/-- An environment in which every attempt times out. -/
def envAllFail : Nat → SampleOutcome := fun _ => .timeout

/-! ### Unfolding lemmas for the probes -/

lemma ping_run_eq_ok (cfg : SpeedTestConfig) (env : Nat → SampleOutcome)
    (h : (successTimes (sampleAttempts cfg.ping_count env)).length ≠ 0) :
    PingTest.run_test cfg env =
      .ok { min_ms := listMin (successTimes (sampleAttempts cfg.ping_count env))
            max_ms := listMax (successTimes (sampleAttempts cfg.ping_count env))
            avg_ms := listMean (successTimes (sampleAttempts cfg.ping_count env))
            samples := (successTimes (sampleAttempts cfg.ping_count env)).length
            failed := failedCount (sampleAttempts cfg.ping_count env)
            success_rate_percent :=
              (((successTimes (sampleAttempts cfg.ping_count env)).length : ℚ) /
                (cfg.ping_count : ℚ)) * 100 } := by
  rw [PingTest.run_test]
  exact if_pos h

lemma ping_run_eq_error (cfg : SpeedTestConfig) (env : Nat → SampleOutcome)
    (h : successTimes (sampleAttempts cfg.ping_count env) = []) :
    PingTest.run_test cfg env =
      .error (.networkConnection "All ping requests failed") := by
  rw [PingTest.run_test]
  simp [h]

/-! ### Claim theorems -/

/-- C2: the latency probe fails (with a `NetworkConnectionError`) if and only
if zero of its sample attempts succeed; whenever at least one attempt
succeeds it returns a `PingResult` instead of failing. -/
theorem ping_fails_iff_zero_successes (cfg : SpeedTestConfig)
    (env : Nat → SampleOutcome) :
    ((∃ m, PingTest.run_test cfg env = .error (.networkConnection m)) ↔
      successTimes (sampleAttempts cfg.ping_count env) = []) ∧
    (successTimes (sampleAttempts cfg.ping_count env) ≠ [] →
      ∃ r, PingTest.run_test cfg env = .ok r) := by
  by_cases h : successTimes (sampleAttempts cfg.ping_count env) = []
  · refine ⟨⟨fun _ => h, fun _ => ⟨_, ping_run_eq_error cfg env h⟩⟩, fun hne => absurd h hne⟩
  · have hlen : (successTimes (sampleAttempts cfg.ping_count env)).length ≠ 0 := by
      simpa [List.length_eq_zero] using h
    refine ⟨⟨?_, fun h0 => absurd h0 h⟩, fun _ => ⟨_, ping_run_eq_ok cfg env hlen⟩⟩
    rintro ⟨m, hm⟩
    rw [ping_run_eq_ok cfg env hlen] at hm
    cases hm

/-- Witness for C2: with all five attempts timing out the probe fails with a
connectivity error, and with the five HTTP-200 attempts of the spec scenario
it returns a result. -/
theorem ping_fails_iff_zero_successes_witness :
    (∃ m, PingTest.run_test pingScenarioConfig envAllFail =
      .error (.networkConnection m)) ∧
    (∃ r, PingTest.run_test pingScenarioConfig (envOfTimes [10, 20, 15, 25, 30]) = .ok r) :=
  ⟨(ping_fails_iff_zero_successes pingScenarioConfig envAllFail).1.mpr (by decide),
   (ping_fails_iff_zero_successes pingScenarioConfig
      (envOfTimes [10, 20, 15, 25, 30])).2 (by decide)⟩

/-- C3: with at least one successful sample, the latency result's min, max
and average are the minimum, maximum and arithmetic mean of the successful
round-trip times (so `min_ms ≤ avg_ms ≤ max_ms`), and its success rate equals
`100 × samples / (samples + failed)`. -/
theorem ping_statistics (cfg : SpeedTestConfig) (env : Nat → SampleOutcome)
    (hne : successTimes (sampleAttempts cfg.ping_count env) ≠ []) :
    ∃ r, PingTest.run_test cfg env = .ok r ∧
      r.min_ms = listMin (successTimes (sampleAttempts cfg.ping_count env)) ∧
      r.max_ms = listMax (successTimes (sampleAttempts cfg.ping_count env)) ∧
      r.avg_ms = listMean (successTimes (sampleAttempts cfg.ping_count env)) ∧
      r.samples = (successTimes (sampleAttempts cfg.ping_count env)).length ∧
      r.failed = failedCount (sampleAttempts cfg.ping_count env) ∧
      r.min_ms ≤ r.avg_ms ∧ r.avg_ms ≤ r.max_ms ∧
      r.success_rate_percent =
        100 * (r.samples : ℚ) / ((r.samples : ℚ) + (r.failed : ℚ)) := by
  have hlen : (successTimes (sampleAttempts cfg.ping_count env)).length ≠ 0 := by
    simpa [List.length_eq_zero] using hne
  refine ⟨_, ping_run_eq_ok cfg env hlen, rfl, rfl, rfl, rfl, rfl,
    listMin_le_listMean hne, listMean_le_listMax hne, ?_⟩
  have hcount := successTimes_length_add_failedCount (sampleAttempts cfg.ping_count env)
  rw [sampleAttempts_length] at hcount
  have hq : ((successTimes (sampleAttempts cfg.ping_count env)).length : ℚ) +
      (failedCount (sampleAttempts cfg.ping_count env) : ℚ) = (cfg.ping_count : ℚ) := by
    exact_mod_cast hcount
  rw [hq]
  ring

/-- Witness for C3: the spec scenario — five HTTP-200 attempts with times
[10, 20, 15, 25, 30] ms. -/
theorem ping_statistics_witness :
    ∃ r, PingTest.run_test pingScenarioConfig (envOfTimes [10, 20, 15, 25, 30]) = .ok r ∧
      r.min_ms = listMin (successTimes
        (sampleAttempts pingScenarioConfig.ping_count (envOfTimes [10, 20, 15, 25, 30]))) ∧
      r.max_ms = listMax (successTimes
        (sampleAttempts pingScenarioConfig.ping_count (envOfTimes [10, 20, 15, 25, 30]))) ∧
      r.avg_ms = listMean (successTimes
        (sampleAttempts pingScenarioConfig.ping_count (envOfTimes [10, 20, 15, 25, 30]))) ∧
      r.samples = (successTimes
        (sampleAttempts pingScenarioConfig.ping_count (envOfTimes [10, 20, 15, 25, 30]))).length ∧
      r.failed = failedCount
        (sampleAttempts pingScenarioConfig.ping_count (envOfTimes [10, 20, 15, 25, 30])) ∧
      r.min_ms ≤ r.avg_ms ∧ r.avg_ms ≤ r.max_ms ∧
      r.success_rate_percent =
        100 * (r.samples : ℚ) / ((r.samples : ℚ) + (r.failed : ℚ)) :=
  ping_statistics pingScenarioConfig (envOfTimes [10, 20, 15, 25, 30]) (by decide)

lemma jitter_run_eq_ok (cfg : SpeedTestConfig) (env : Nat → SampleOutcome)
    (h : 2 ≤ (successTimes (sampleAttempts cfg.jitter_samples env)).length) :
    JitterTest.run_test cfg env =
      .ok { avg_jitter_ms :=
              listMean (consecDiffs (successTimes (sampleAttempts cfg.jitter_samples env)))
            min_jitter_ms :=
              listMin (consecDiffs (successTimes (sampleAttempts cfg.jitter_samples env)))
            max_jitter_ms :=
              listMax (consecDiffs (successTimes (sampleAttempts cfg.jitter_samples env)))
            std_dev_ms :=
              if 1 < (consecDiffs (successTimes (sampleAttempts cfg.jitter_samples env))).length
              then Real.sqrt
                (sampleVariance (consecDiffs (successTimes (sampleAttempts cfg.jitter_samples env))))
              else 0
            samples := (successTimes (sampleAttempts cfg.jitter_samples env)).length
            failed := failedCount (sampleAttempts cfg.jitter_samples env)
            success_rate_percent :=
              (((successTimes (sampleAttempts cfg.jitter_samples env)).length : ℚ) /
                (cfg.jitter_samples : ℚ)) * 100 } := by
  rw [JitterTest.run_test]
  exact if_pos h

lemma jitter_run_eq_error (cfg : SpeedTestConfig) (env : Nat → SampleOutcome)
    (h : (successTimes (sampleAttempts cfg.jitter_samples env)).length < 2) :
    JitterTest.run_test cfg env =
      .error (.networkConnection "Not enough successful jitter samples to calculate result") := by
  rw [JitterTest.run_test]
  exact if_neg (by omega)

/-- C4: the jitter probe fails (with a `NetworkConnectionError`) if and only
if fewer than 2 sample attempts succeed; with exactly 2 successful samples it
returns a `JitterResult` whose `std_dev_ms` is 0. -/
theorem jitter_fails_iff_lt_two_successes (cfg : SpeedTestConfig)
    (env : Nat → SampleOutcome) :
    ((∃ m, JitterTest.run_test cfg env = .error (.networkConnection m)) ↔
      (successTimes (sampleAttempts cfg.jitter_samples env)).length < 2) ∧
    ((successTimes (sampleAttempts cfg.jitter_samples env)).length = 2 →
      ∃ r, JitterTest.run_test cfg env = .ok r ∧ r.std_dev_ms = 0) := by
  constructor
  · by_cases h : (successTimes (sampleAttempts cfg.jitter_samples env)).length < 2
    · exact ⟨fun _ => h, fun _ => ⟨_, jitter_run_eq_error cfg env h⟩⟩
    · refine ⟨?_, fun h2 => absurd h2 h⟩
      rintro ⟨m, hm⟩
      rw [jitter_run_eq_ok cfg env (by omega)] at hm
      cases hm
  · intro h2
    refine ⟨_, jitter_run_eq_ok cfg env (by omega), ?_⟩
    have hd : (consecDiffs (successTimes (sampleAttempts cfg.jitter_samples env))).length = 1 := by
      rw [consecDiffs_length, h2]
    simp [hd]

/-- Witness for C4: with exactly two successful samples of [10, 15] among
the three attempts, the probe returns a result with `std_dev_ms = 0`. -/
theorem jitter_fails_iff_lt_two_successes_witness :
    (∃ m, JitterTest.run_test jitterScenarioConfig envAllFail =
      .error (.networkConnection m)) ∧
    (∃ r, JitterTest.run_test jitterScenarioConfig (envOfTimes [10, 15]) = .ok r ∧
      r.std_dev_ms = 0) :=
  ⟨(jitter_fails_iff_lt_two_successes jitterScenarioConfig envAllFail).1.mpr (by decide),
   (jitter_fails_iff_lt_two_successes jitterScenarioConfig (envOfTimes [10, 15])).2 (by decide)⟩

/-- C5: with at least 2 successful samples, the jitter result is computed
from the absolute consecutive differences of the successful times in request
order (a sequence of length `successes − 1`): mean, min and max of the
differences, a nonnegative `std_dev_ms` whose square is the sample variance
of the differences (0 when only one difference exists), and success rate
`100 × successes / total attempts`; the spec scenario [10, 15, 13] ms with
`jitter_samples = 3` yields avg 3.5, min 2, max 5, samples 3, failed 0. -/
theorem jitter_statistics (cfg : SpeedTestConfig) (env : Nat → SampleOutcome)
    (h : 2 ≤ (successTimes (sampleAttempts cfg.jitter_samples env)).length) :
    ∃ r, JitterTest.run_test cfg env = .ok r ∧
      (consecDiffs (successTimes (sampleAttempts cfg.jitter_samples env))).length =
        (successTimes (sampleAttempts cfg.jitter_samples env)).length - 1 ∧
      r.avg_jitter_ms =
        listMean (consecDiffs (successTimes (sampleAttempts cfg.jitter_samples env))) ∧
      r.min_jitter_ms =
        listMin (consecDiffs (successTimes (sampleAttempts cfg.jitter_samples env))) ∧
      r.max_jitter_ms =
        listMax (consecDiffs (successTimes (sampleAttempts cfg.jitter_samples env))) ∧
      r.samples = (successTimes (sampleAttempts cfg.jitter_samples env)).length ∧
      r.failed = failedCount (sampleAttempts cfg.jitter_samples env) ∧
      0 ≤ r.std_dev_ms ∧
      r.std_dev_ms ^ 2 =
        (if 1 < (consecDiffs (successTimes (sampleAttempts cfg.jitter_samples env))).length
         then ((sampleVariance (consecDiffs (successTimes (sampleAttempts cfg.jitter_samples env))) : ℚ) : ℝ)
         else 0) ∧
      r.success_rate_percent =
        100 * (r.samples : ℚ) / ((r.samples : ℚ) + (r.failed : ℚ)) ∧
      (cfg.jitter_samples = 3 →
        successTimes (sampleAttempts cfg.jitter_samples env) = [10, 15, 13] →
        r.avg_jitter_ms = 7 / 2 ∧ r.min_jitter_ms = 2 ∧ r.max_jitter_ms = 5 ∧
          r.samples = 3 ∧ r.failed = 0) := by
  refine ⟨_, jitter_run_eq_ok cfg env h, consecDiffs_length _, rfl, rfl, rfl, rfl, rfl,
    ?_, ?_, ?_, ?_⟩
  · dsimp only
    split
    · exact Real.sqrt_nonneg _
    · exact le_refl 0
  · dsimp only
    split
    · exact Real.sq_sqrt (by exact_mod_cast sampleVariance_nonneg _)
    · norm_num
  · dsimp only
    have hcount := successTimes_length_add_failedCount (sampleAttempts cfg.jitter_samples env)
    rw [sampleAttempts_length] at hcount
    have hq : ((successTimes (sampleAttempts cfg.jitter_samples env)).length : ℚ) +
        (failedCount (sampleAttempts cfg.jitter_samples env) : ℚ) = (cfg.jitter_samples : ℚ) := by
      exact_mod_cast hcount
    rw [hq]
    ring
  · intro hjs hts
    have hcount := successTimes_length_add_failedCount (sampleAttempts cfg.jitter_samples env)
    rw [hts, sampleAttempts_length, hjs] at hcount
    simp only [List.length_cons, List.length_nil] at hcount
    have hdiffs : consecDiffs ([10, 15, 13] : List ℚ) = [5, 2] := by
      show [|(15 : ℚ) - 10|, |(13 : ℚ) - 15|] = [5, 2]
      norm_num
    refine ⟨?_, ?_, ?_, ?_, ?_⟩
    · show listMean (consecDiffs (successTimes (sampleAttempts cfg.jitter_samples env))) = 7 / 2
      rw [hts, hdiffs]
      show ((5 : ℚ) + (2 + 0)) / 2 = 7 / 2
      norm_num
    · show listMin (consecDiffs (successTimes (sampleAttempts cfg.jitter_samples env))) = 2
      rw [hts, hdiffs]
      show min (5 : ℚ) 2 = 2
      norm_num
    · show listMax (consecDiffs (successTimes (sampleAttempts cfg.jitter_samples env))) = 5
      rw [hts, hdiffs]
      show max (5 : ℚ) 2 = 5
      norm_num
    · show (successTimes (sampleAttempts cfg.jitter_samples env)).length = 3
      rw [hts]
      rfl
    · show failedCount (sampleAttempts cfg.jitter_samples env) = 0
      rw [hjs]
      omega

/-- Witness for C5: the spec scenario — `jitter_samples = 3` and successful
times [10, 15, 13] ms give avg jitter 3.5 ms, min 2 ms, max 5 ms. -/
theorem jitter_statistics_witness :
    ∃ r, JitterTest.run_test jitterScenarioConfig (envOfTimes [10, 15, 13]) = .ok r ∧
      r.avg_jitter_ms = 7 / 2 ∧ r.min_jitter_ms = 2 ∧ r.max_jitter_ms = 5 ∧
      r.samples = 3 ∧ r.failed = 0 := by
  obtain ⟨r, hok, _, _, _, _, _, _, _, _, _, hscen⟩ :=
    jitter_statistics jitterScenarioConfig (envOfTimes [10, 15, 13]) (by decide)
  obtain ⟨h1, h2, h3, h4, h5⟩ := hscen (by decide) (by decide)
  exact ⟨r, hok, h1, h2, h3, h4, h5⟩

/-- C6: every successful download or upload result satisfies
`speed_mbps = bytes_transferred × 8 / time_seconds / 1 000 000` (exactly, in
rational arithmetic, hence within any tolerance); the download probe's
`bytes_transferred` is the byte count actually received, while the upload
probe's equals the requested `upload_size_mb × 1024 × 1024`. -/
theorem transfer_speed_formula (cfg : SpeedTestConfig) (o : TransferOutcome) :
    (∀ r, DownloadTest.run_test cfg o = .ok r →
      r.speed_mbps = (r.bytes_transferred : ℚ) * 8 / r.time_seconds / 1000000 ∧
      ∀ status chunks duration, o = .response status chunks duration →
        r.bytes_transferred = chunks.sum) ∧
    (∀ r, UploadTest.run_test cfg o = .ok r →
      r.speed_mbps = (r.bytes_transferred : ℚ) * 8 / r.time_seconds / 1000000 ∧
      r.bytes_transferred = cfg.upload_size_mb * 1024 * 1024) := by
  constructor
  · intro r hr
    cases o with
    | timeout => exact Except.noConfusion hr
    | requestError m => exact Except.noConfusion hr
    | response status chunks duration =>
      simp only [DownloadTest.run_test] at hr
      split at hr
      · exact Except.noConfusion hr
      · split at hr
        · injection hr with h
          subst h
          refine ⟨rfl, ?_⟩
          intro s c d heq
          injection heq with h1 h2 h3
          subst h2
          exact countDownloaded_eq_sum chunks
        · exact Except.noConfusion hr
  · intro r hr
    cases o with
    | timeout => exact Except.noConfusion hr
    | requestError m => exact Except.noConfusion hr
    | response status chunks duration =>
      simp only [UploadTest.run_test] at hr
      split at hr
      · exact Except.noConfusion hr
      · split at hr
        · injection hr with h
          subst h
          exact ⟨rfl, rfl⟩
        · exact Except.noConfusion hr

/-- Witness for C6: a download that received 5 MiB in 2 s (even though 10 MB
were requested), and an upload of the requested 5 MB accepted with 204. -/
theorem transfer_speed_formula_witness :
    ∃ rd ru,
      DownloadTest.run_test exampleConfig (.response 200 [5242880] 2) = .ok rd ∧
      rd.speed_mbps = (rd.bytes_transferred : ℚ) * 8 / rd.time_seconds / 1000000 ∧
      rd.bytes_transferred = [5242880].sum ∧
      UploadTest.run_test exampleConfig (.response 204 [] 2) = .ok ru ∧
      ru.speed_mbps = (ru.bytes_transferred : ℚ) * 8 / ru.time_seconds / 1000000 ∧
      ru.bytes_transferred = exampleConfig.upload_size_mb * 1024 * 1024 := by
  obtain ⟨rd, hrd⟩ : ∃ rd,
      DownloadTest.run_test exampleConfig (.response 200 [5242880] 2) = .ok rd := ⟨_, rfl⟩
  obtain ⟨ru, hru⟩ : ∃ ru,
      UploadTest.run_test exampleConfig (.response 204 [] 2) = .ok ru := ⟨_, rfl⟩
  obtain ⟨hds, hdb⟩ :=
    (transfer_speed_formula exampleConfig (.response 200 [5242880] 2)).1 rd hrd
  obtain ⟨hus, hub⟩ :=
    (transfer_speed_formula exampleConfig (.response 204 [] 2)).2 ru hru
  exact ⟨rd, ru, hrd, hds, hdb 200 [5242880] 2 rfl, hru, hus, hub⟩

/-- Counterexample for C7: 203 lies in the 2xx range, yet a completed POST
answered with status 203 makes the upload probe fail with an
invalid-response error — the code accepts only 200, 201, 202 and 204. -/
theorem upload_status_203_rejected :
    (200 ≤ 203 ∧ 203 < 300) ∧
    UploadTest.run_test exampleConfig (.response 203 [] 1) =
      .error (.invalidResponse "Upload test failed with status code: 203") :=
  ⟨⟨by norm_num, by norm_num⟩, rfl⟩

/-- C7 amended: for every completed POST with measurable (positive) duration,
the upload probe succeeds exactly when the status code is one of 200, 201,
202, 204, and any other status — inside or outside the 2xx range — causes an
invalid-response failure. -/
theorem upload_accepted_statuses (cfg : SpeedTestConfig) (status : Nat)
    (chunks : List Nat) (duration : ℚ) (hd : 0 < duration) :
    ((∃ r, UploadTest.run_test cfg (.response status chunks duration) = .ok r) ↔
      status ∈ ([200, 201, 202, 204] : List Nat)) ∧
    (status ∉ ([200, 201, 202, 204] : List Nat) →
      ∃ m, UploadTest.run_test cfg (.response status chunks duration) =
        .error (.invalidResponse m)) := by
  by_cases hs : status ∈ ([200, 201, 202, 204] : List Nat)
  · constructor
    · refine ⟨fun _ => hs, fun _ => ?_⟩
      simp only [UploadTest.run_test]
      rw [if_neg (not_not_intro hs), if_pos hd]
      exact ⟨_, rfl⟩
    · intro hns
      exact absurd hs hns
  · constructor
    · refine ⟨?_, fun h => absurd h hs⟩
      rintro ⟨r, hr⟩
      simp only [UploadTest.run_test] at hr
      rw [if_pos hs] at hr
      exact Except.noConfusion hr
    · intro _
      simp only [UploadTest.run_test]
      rw [if_pos hs]
      exact ⟨_, rfl⟩

/-- Witness for C7 amended: status 201 is accepted, status 404 is rejected
with an invalid-response error. -/
theorem upload_accepted_statuses_witness :
    (∃ r, UploadTest.run_test exampleConfig (.response 201 [] 1) = .ok r) ∧
    (∃ m, UploadTest.run_test exampleConfig (.response 404 [] 1) =
      .error (.invalidResponse m)) :=
  ⟨(upload_accepted_statuses exampleConfig 201 [] 1 (by norm_num)).1.mpr (by decide),
   (upload_accepted_statuses exampleConfig 404 [] 1 (by norm_num)).2 (by decide)⟩

/-- Counterexample for C8: the download GET carries no cache-busting query
parameter — its `params` dict is empty (in particular the `_` cache-buster
that the latency GET carries is absent), so not every one of the three GETs
includes a cache-busting query parameter. -/
theorem download_request_no_cache_buster :
    (downloadRequest exampleConfig).params = [] ∧
    (∀ v, ("_", v) ∉ (downloadRequest exampleConfig).params) ∧
    ("_", "12345") ∈ (pingRequest exampleConfig 12345).params := by
  refine ⟨rfl, ?_, by decide⟩
  intro v hv
  simp [downloadRequest] at hv

/-- C8 amended: the latency and jitter GETs carry the cache-defeating
`Cache-Control: no-cache` header and the `_` cache-busting query parameter;
the download GET carries the same header and a
`bytes=<download_size_mb × 1024 × 1024>` query suffix on its URL, but no
cache-busting parameter. -/
theorem probe_request_shapes (cfg : SpeedTestConfig) (now_ms : Nat) :
    ("Cache-Control", "no-cache") ∈ (pingRequest cfg now_ms).headers ∧
    ("_", toString now_ms) ∈ (pingRequest cfg now_ms).params ∧
    ("Cache-Control", "no-cache") ∈ (jitterRequest cfg now_ms).headers ∧
    ("_", toString now_ms) ∈ (jitterRequest cfg now_ms).params ∧
    ("Cache-Control", "no-cache") ∈ (downloadRequest cfg).headers ∧
    (downloadRequest cfg).url =
      cfg.url ++ "?bytes=" ++ toString (cfg.download_size_mb * 1024 * 1024) ∧
    (downloadRequest cfg).params = [] := by
  refine ⟨?_, ?_, ?_, ?_, ?_, rfl, rfl⟩ <;>
    simp [pingRequest, jitterRequest, downloadRequest]

/-- C9: for every positive requested upload size, the payload generator
terminates after finitely many yields (some fuel suffices), every chunk it
yields is at most 1 MiB, and the chunk sizes total exactly
`upload_size_mb × 1024 × 1024` bytes. -/
theorem data_generator_bounded (m : Nat) (hm : 0 < m) :
    ∃ fuel l, dataGeneratorChunks m fuel = some l ∧
      (∀ c ∈ l, c ≤ 1024 * 1024) ∧
      l.sum = m * 1024 * 1024 := by
  have hc : (0 : ℕ) < 1024 * 1024 := by norm_num
  have hmin : min (1024 * 1024) (m * 1024 * 1024) = 1024 * 1024 := by
    apply min_eq_left
    calc 1024 * 1024 = 1 * (1024 * 1024) := by ring
    _ ≤ m * (1024 * 1024) := Nat.mul_le_mul_right _ hm
    _ = m * 1024 * 1024 := by ring
  refine ⟨m, List.replicate m (1024 * 1024), ?_, ?_, ?_⟩
  · show genChunksFuel m (min (1024 * 1024) (m * 1024 * 1024)) (m * 1024 * 1024) =
      some (List.replicate m (1024 * 1024))
    rw [hmin, show m * 1024 * 1024 = m * (1024 * 1024) from by ring]
    exact genChunksFuel_exact (1024 * 1024) hc m
  · intro c hcm
    rw [List.eq_of_mem_replicate hcm]
  · rw [List.sum_replicate, smul_eq_mul]
    ring

/-- Witness for C9: an upload of the default 5 MB yields chunks of at most
1 MiB totalling exactly 5 × 1024 × 1024 bytes. -/
theorem data_generator_bounded_witness :
    ∃ fuel l, dataGeneratorChunks 5 fuel = some l ∧
      (∀ c ∈ l, c ≤ 1024 * 1024) ∧
      l.sum = 5 * 1024 * 1024 :=
  data_generator_bounded 5 (by norm_num)

/-- C10 (implicit): `is_successful` is true exactly when at least one of the
four probe result fields is populated, false exactly when all four are
unset, and its value does not depend on the failure list or the timestamp. -/
theorem is_successful_iff_some_result (r : SpeedTestResult) :
    (r.is_successful = true ↔
      (r.ping.isSome = true ∨ r.jitter.isSome = true ∨
        r.download.isSome = true ∨ r.upload.isSome = true)) ∧
    (r.is_successful = false ↔
      (r.ping = none ∧ r.jitter = none ∧ r.download = none ∧ r.upload = none)) ∧
    (∀ es t, ({ r with errors := es, timestamp := t } : SpeedTestResult).is_successful =
      r.is_successful) := by
  obtain ⟨p, j, d, u, es, t⟩ := r
  refine ⟨?_, ?_, fun _ _ => rfl⟩ <;>
    cases p <;> cases j <;> cases d <;> cases u <;>
      simp [SpeedTestResult.is_successful]

/-! ### The aggregator (C1) -/

lemma string_append_ne {c d : Char} {cs ds : List Char} {p q : String}
    (hp : p.data = c :: cs) (hq : q.data = d :: ds) (hcd : c ≠ d)
    (m m' : String) : p ++ m ≠ q ++ m' := by
  intro h
  have hdata := congrArg String.data h
  rw [String.data_append, String.data_append, hp, hq] at hdata
  injection hdata with h1 _
  exact hcd h1

lemma mem_errEntry {α : Type} {pre e : String} {x : Except NetError α}
    (he : e ∈ errEntry pre x) : ∃ m, e = pre ++ m := by
  cases x with
  | ok a => cases he
  | error err =>
    rcases List.mem_singleton.mp he with rfl
    exact ⟨err.message, rfl⟩

lemma not_mem_errEntry_of_ne {α : Type} {pre pre' : String}
    (hne : ∀ m m', pre ++ m ≠ pre' ++ m') (x : Except NetError α) (m : String) :
    (pre ++ m) ∉ errEntry pre' x := by
  intro hm
  rcases mem_errEntry hm with ⟨m', he⟩
  exact hne m m' he

lemma probe_field_iff {α : Type} {pre : String} {x : Except NetError α}
    {errs : List String}
    (hmem : ∀ m, ((pre ++ m) ∈ errs ↔ (pre ++ m) ∈ errEntry pre x)) :
    (x.toOption.isSome = true ↔ ∀ m, (pre ++ m) ∉ errs) := by
  cases x with
  | ok a =>
    constructor
    · intro _ m hm
      rw [hmem] at hm
      cases hm
    · intro _
      rfl
  | error e =>
    constructor
    · intro h
      simp [Except.toOption] at h
    · intro hall
      exact absurd ((hmem e.message).mpr (List.mem_singleton.mpr rfl)) (hall e.message)

/-- C1: for every valid configuration and every combination of per-probe
outcomes, `run_all_tests` always produces a combined result in which each
probe's result field is populated exactly when no failure message for that
probe is in the failure list, and whose timestamp is set to the completion
time; when all four probes fail, all four result fields are unset and the
failure list has length 4. -/
theorem run_all_tests_isolation (cfg : SpeedTestConfig) (hv : cfg.isValid)
    (pingEnv jitterEnv : Nat → SampleOutcome)
    (dl ul : TransferOutcome) (now : ℚ) (r : SpeedTestResult)
    (hr : r = SpeedTester.run_all_tests cfg pingEnv jitterEnv dl ul now) :
    (r.ping.isSome = true ↔ ∀ m, ("Ping test error: " ++ m) ∉ r.errors) ∧
    (r.jitter.isSome = true ↔ ∀ m, ("Jitter test error: " ++ m) ∉ r.errors) ∧
    (r.download.isSome = true ↔ ∀ m, ("Download test error: " ++ m) ∉ r.errors) ∧
    (r.upload.isSome = true ↔ ∀ m, ("Upload test error: " ++ m) ∉ r.errors) ∧
    r.timestamp = now ∧
    ((PingTest.run_test cfg pingEnv).isOk = false →
      (JitterTest.run_test cfg jitterEnv).isOk = false →
      (DownloadTest.run_test cfg dl).isOk = false →
      (UploadTest.run_test cfg ul).isOk = false →
      r.ping = none ∧ r.jitter = none ∧ r.download = none ∧ r.upload = none ∧
        r.errors.length = 4) := by
  subst hr
  have hPJ : ∀ m m', ("Ping test error: " ++ m) ≠ ("Jitter test error: " ++ m') :=
    fun m m' => string_append_ne rfl rfl (by decide) m m'
  have hPD : ∀ m m', ("Ping test error: " ++ m) ≠ ("Download test error: " ++ m') :=
    fun m m' => string_append_ne rfl rfl (by decide) m m'
  have hPU : ∀ m m', ("Ping test error: " ++ m) ≠ ("Upload test error: " ++ m') :=
    fun m m' => string_append_ne rfl rfl (by decide) m m'
  have hJP : ∀ m m', ("Jitter test error: " ++ m) ≠ ("Ping test error: " ++ m') :=
    fun m m' => string_append_ne rfl rfl (by decide) m m'
  have hJD : ∀ m m', ("Jitter test error: " ++ m) ≠ ("Download test error: " ++ m') :=
    fun m m' => string_append_ne rfl rfl (by decide) m m'
  have hJU : ∀ m m', ("Jitter test error: " ++ m) ≠ ("Upload test error: " ++ m') :=
    fun m m' => string_append_ne rfl rfl (by decide) m m'
  have hDP : ∀ m m', ("Download test error: " ++ m) ≠ ("Ping test error: " ++ m') :=
    fun m m' => string_append_ne rfl rfl (by decide) m m'
  have hDJ : ∀ m m', ("Download test error: " ++ m) ≠ ("Jitter test error: " ++ m') :=
    fun m m' => string_append_ne rfl rfl (by decide) m m'
  have hDU : ∀ m m', ("Download test error: " ++ m) ≠ ("Upload test error: " ++ m') :=
    fun m m' => string_append_ne rfl rfl (by decide) m m'
  have hUP : ∀ m m', ("Upload test error: " ++ m) ≠ ("Ping test error: " ++ m') :=
    fun m m' => string_append_ne rfl rfl (by decide) m m'
  have hUJ : ∀ m m', ("Upload test error: " ++ m) ≠ ("Jitter test error: " ++ m') :=
    fun m m' => string_append_ne rfl rfl (by decide) m m'
  have hUD : ∀ m m', ("Upload test error: " ++ m) ≠ ("Download test error: " ++ m') :=
    fun m m' => string_append_ne rfl rfl (by decide) m m'
  dsimp only [SpeedTester.run_all_tests]
  refine ⟨probe_field_iff ?_, probe_field_iff ?_, probe_field_iff ?_, probe_field_iff ?_,
    rfl, ?_⟩
  · intro m
    simp only [List.mem_append]
    constructor
    · rintro (((h | h) | h) | h)
      · exact h
      · exact absurd h (not_mem_errEntry_of_ne hPJ _ m)
      · exact absurd h (not_mem_errEntry_of_ne hPD _ m)
      · exact absurd h (not_mem_errEntry_of_ne hPU _ m)
    · exact fun h => Or.inl (Or.inl (Or.inl h))
  · intro m
    simp only [List.mem_append]
    constructor
    · rintro (((h | h) | h) | h)
      · exact absurd h (not_mem_errEntry_of_ne hJP _ m)
      · exact h
      · exact absurd h (not_mem_errEntry_of_ne hJD _ m)
      · exact absurd h (not_mem_errEntry_of_ne hJU _ m)
    · exact fun h => Or.inl (Or.inl (Or.inr h))
  · intro m
    simp only [List.mem_append]
    constructor
    · rintro (((h | h) | h) | h)
      · exact absurd h (not_mem_errEntry_of_ne hDP _ m)
      · exact absurd h (not_mem_errEntry_of_ne hDJ _ m)
      · exact h
      · exact absurd h (not_mem_errEntry_of_ne hDU _ m)
    · exact fun h => Or.inl (Or.inr h)
  · intro m
    simp only [List.mem_append]
    constructor
    · rintro (((h | h) | h) | h)
      · exact absurd h (not_mem_errEntry_of_ne hUP _ m)
      · exact absurd h (not_mem_errEntry_of_ne hUJ _ m)
      · exact absurd h (not_mem_errEntry_of_ne hUD _ m)
      · exact h
    · exact fun h => Or.inr h
  · intro h1 h2 h3 h4
    cases hx1 : PingTest.run_test cfg pingEnv with
    | ok a => rw [hx1] at h1; exact Bool.noConfusion h1
    | error e1 =>
      cases hx2 : JitterTest.run_test cfg jitterEnv with
      | ok a => rw [hx2] at h2; exact Bool.noConfusion h2
      | error e2 =>
        cases hx3 : DownloadTest.run_test cfg dl with
        | ok a => rw [hx3] at h3; exact Bool.noConfusion h3
        | error e3 =>
          cases hx4 : UploadTest.run_test cfg ul with
          | ok a => rw [hx4] at h4; exact Bool.noConfusion h4
          | error e4 =>
            refine ⟨rfl, rfl, rfl, rfl, rfl⟩

/-- Witness for C1: with every probe failing (all attempts time out, both
transfers time out), all four fields are unset, the failure list has four
entries, and the timestamp is the completion time. -/
theorem run_all_tests_isolation_witness :
    ∃ r, r = SpeedTester.run_all_tests exampleConfig envAllFail envAllFail
        .timeout .timeout 42 ∧
      r.ping = none ∧ r.jitter = none ∧ r.download = none ∧ r.upload = none ∧
      r.errors.length = 4 ∧ r.timestamp = 42 := by
  obtain ⟨_, _, _, _, ht, hfail⟩ :=
    run_all_tests_isolation exampleConfig (by decide) envAllFail envAllFail
      .timeout .timeout 42 _ rfl
  obtain ⟨h1, h2, h3, h4, h5⟩ := hfail (by decide) (by decide) rfl rfl
  exact ⟨_, rfl, h1, h2, h3, h4, h5, ht⟩

end NetSpeed
